import Mathlib

/-
Verification of the league management backend core logic.

The development embeds, as executable Lean definitions, the result state
machine of core/models.py (Match and Game save hooks, winner determination,
snapshots, race-to calculation), the schedule generator of
league/services.py, and the roster player creation of team/serializers.py.
Django rows become structures; nullable columns become Option; a method that
can raise becomes an Option or Except valued function, where none or error
is the raised exception. Foreign keys that the embedded methods dereference
are flattened into the owning structure (a Match carries its two TeamSeason
rows, a Game carries its parent Match row and its two TeamPlayer rows), and
writes through those references are written back into the owning structure.
-/

namespace LMS

/-- TeamSeason row (core/models.py lines 132 to 152); the team and captain
foreign keys are flattened to the two name fields the snapshot reads. -/
structure TeamSeason where
  id : Nat
  team_name : String
  captain_name : String
  wins : Int
  losses : Int
  games_won : Int
  games_lost : Int
  deriving DecidableEq, Repr

/-- One side of the team_snapshot JSON written by Match.set_team_snapshot. -/
structure TeamSnapEntry where
  team_name : String
  wins : Int
  losses : Int
  captain : String
  games_won : Int
  games_lost : Int
  deriving DecidableEq, Repr

/-- The team_snapshot JSON shape. -/
structure TeamSnapshot where
  home_team : TeamSnapEntry
  away_team : TeamSnapEntry
  deriving DecidableEq, Repr

/-- The lineups JSON, reduced to the handicap lists that
Match.calculate_race_to sums. -/
structure Lineups where
  home_team : List Int
  away_team : List Int
  deriving DecidableEq, Repr

/-- Match row (core/models.py lines 225 to 244). The match_night foreign key
is flattened to the start time the save hook inherits; the two TeamSeason
rows are carried inline so that the record updates of
Match.update_team_records can be written back. -/
structure Match where
  match_night_start_time : String
  match_time : Option String
  home_team : TeamSeason
  away_team : TeamSeason
  home_score : Option Int
  away_score : Option Int
  home_race_to : Option Int
  away_race_to : Option Int
  winner : Option String
  status : String
  team_snapshot : Option TeamSnapshot
  lineups : Option Lineups
  deriving DecidableEq, Repr

/-- The snapshot entry built for one side by Match.set_team_snapshot
(core/models.py lines 258 to 277). -/
def teamEntryOf (t : TeamSeason) : TeamSnapEntry :=
  { team_name := t.team_name
    wins := t.wins
    losses := t.losses
    captain := t.captain_name
    games_won := t.games_won
    games_lost := t.games_lost }

/-- Match.set_team_snapshot (core/models.py lines 258 to 277): overwrite the
team_snapshot field with the current live records of both teams. -/
def Match.set_team_snapshot (m : Match) : Match :=
  { m with team_snapshot := some { home_team := teamEntryOf m.home_team
                                   away_team := teamEntryOf m.away_team } }

/-- Models winning_team.save() and losing_team.save() inside
Match.update_team_records: in the source the two arguments alias
self.home_team or self.away_team, so the mutation lands on the row whose
primary key matches; here the updated row is written back into the side
holding the same id. -/
def Match.put_team (m : Match) (t : TeamSeason) : Match :=
  if t.id = m.home_team.id then { m with home_team := t }
  else if t.id = m.away_team.id then { m with away_team := t }
  else m

/-- Match.update_team_records (core/models.py lines 289 to 303). The games
increments read self.home_score or self.away_score depending on which side
the winning and losing rows are (the source compares the row objects, which
Django resolves by primary key). A missing score would be a TypeError on the
Python += , hence the none result. -/
def Match.update_team_records (m : Match) (winning_team losing_team : TeamSeason) :
    Option Match :=
  match (if winning_team.id = m.home_team.id then m.home_score else m.away_score),
        (if losing_team.id = m.home_team.id then m.home_score else m.away_score) with
  | some winner_games, some loser_games =>
      let wt := { winning_team with
                    wins := winning_team.wins + 1
                    games_won := winning_team.games_won + winner_games }
      let lt := { losing_team with
                    losses := losing_team.losses + 1
                    games_lost := losing_team.games_lost + loser_games }
      some ((m.put_team wt).put_team lt)
  | _, _ => none

/-- Match.update_match_winner (core/models.py lines 279 to 287). Runs only
when both scores are present; comparing a present score against a missing
race-to raises a TypeError in the source, modelled as none. There is no
guard on an already set winner. -/
def Match.update_match_winner (m : Match) : Option Match :=
  match m.home_score, m.away_score with
  | some hs, some as_ =>
      match m.home_race_to with
      | none => none
      | some hrt =>
          if hrt ≤ hs then
            let m2 := { m with winner := some "home" }
            m2.update_team_records m2.home_team m2.away_team
          else
            match m.away_race_to with
            | none => none
            | some art =>
                if art ≤ as_ then
                  let m2 := { m with winner := some "away" }
                  m2.update_team_records m2.away_team m2.home_team
                else some m
  | _, _ => some m

/-- Match.save (core/models.py lines 305 to 315): inherit the match time from
the match night when absent, then, whenever the status is completed, take the
team snapshot and run winner determination. -/
def Match.save (m : Match) : Option Match :=
  let m1 := if m.match_time = none
            then { m with match_time := some m.match_night_start_time } else m
  if m1.status = "completed" then (m1.set_team_snapshot).update_match_winner
  else some m1

/-- Match.calculate_race_to (core/models.py lines 246 to 256): when lineups
are present, set both race-to fields to max(20, 30 - handicap sum) and call
self.save(). Nothing in the repository calls this method. -/
def Match.calculate_race_to (m : Match) : Option Match :=
  match m.lineups with
  | some lineups =>
      let home_team_handicap := lineups.home_team.sum
      let away_team_handicap := lineups.away_team.sum
      let m2 := { m with
                    home_race_to := some (max 20 (30 - home_team_handicap))
                    away_race_to := some (max 20 (30 - away_team_handicap)) }
      m2.save
  | none => some m

/-- TeamPlayer row (core/models.py lines 170 to 189); the player foreign key
is flattened to the id and the name the snapshot reads. -/
structure TeamPlayer where
  id : Nat
  team_season : Nat
  player : Nat
  player_name : String
  handicap : Int
  wins : Int
  losses : Int
  is_captain : Bool
  is_active : Bool
  deriving DecidableEq, Repr

/-- One side of the player_snapshot JSON. -/
structure PlayerSnapEntry where
  player_name : String
  wins : Int
  losses : Int
  handicap : Int
  deriving DecidableEq, Repr

/-- The player_snapshot JSON shape. -/
structure PlayerSnapshot where
  home_player : PlayerSnapEntry
  away_player : PlayerSnapEntry
  deriving DecidableEq, Repr

/-- Game row (core/models.py lines 318 to 331). The match foreign key is
carried inline, because Game.update_game_winner mutates the parent row and
calls its save hook. -/
structure Game where
  match_row : Match
  home_player : TeamPlayer
  away_player : TeamPlayer
  home_race_to : Option Int
  away_race_to : Option Int
  home_score : Option Int
  away_score : Option Int
  winner : Option String
  status : String
  player_snapshot : Option PlayerSnapshot
  deriving DecidableEq, Repr

/-- The snapshot entry built for one side by Game.set_player_snapshot. -/
def playerEntryOf (p : TeamPlayer) : PlayerSnapEntry :=
  { player_name := p.player_name
    wins := p.wins
    losses := p.losses
    handicap := p.handicap }

/-- Game.set_player_snapshot (core/models.py lines 354 to 369): overwrite the
player_snapshot field with the current live records of both players. -/
def Game.set_player_snapshot (g : Game) : Game :=
  { g with player_snapshot := some { home_player := playerEntryOf g.home_player
                                     away_player := playerEntryOf g.away_player } }

/-- Game.update_game_winner (core/models.py lines 333 to 352). Runs only when
the winner is not already set and both scores are present; missing parent
match scores are initialised to 0; the winning side adds exactly 1 to the
parent score; the parent row is then saved, which may run the match level
completion hook. Comparing against a missing race-to raises a TypeError in
the source, modelled as none. -/
def Game.update_game_winner (g : Game) : Option Game :=
  match g.winner, g.home_score, g.away_score with
  | none, some hs, some as_ =>
      let mr0 := g.match_row
      let mr := { mr0 with home_score := some (mr0.home_score.getD 0)
                           away_score := some (mr0.away_score.getD 0) }
      match g.home_race_to with
      | none => none
      | some hrt =>
          if hrt ≤ hs then
            let g2 := { g with winner := some "home"
                               match_row := { mr with
                                 home_score := some (mr0.home_score.getD 0 + 1) } }
            (g2.match_row.save).map (fun msaved => { g2 with match_row := msaved })
          else
            match g.away_race_to with
            | none => none
            | some art =>
                if art ≤ as_ then
                  let g2 := { g with winner := some "away"
                                     match_row := { mr with
                                       away_score := some (mr0.away_score.getD 0 + 1) } }
                  (g2.match_row.save).map (fun msaved => { g2 with match_row := msaved })
                else
                  let g2 := { g with winner := some "tie", match_row := mr }
                  (g2.match_row.save).map (fun msaved => { g2 with match_row := msaved })
  | _, _, _ => some g

/-- Game.save (core/models.py lines 371 to 382): default both race-to values
to 1 when absent, then, whenever the status is completed, take the player
snapshot and run winner determination. -/
def Game.save (g : Game) : Option Game :=
  let g1 := if g.home_race_to = none then { g with home_race_to := some 1 } else g
  let g2 := if g1.away_race_to = none then { g1 with away_race_to := some 1 } else g1
  if g2.status = "completed" then (g2.set_player_snapshot).update_game_winner
  else some g2

/-
Schedule generator, league/services.py. Rosters are reduced to their ids.
The two sources of randomness, the shuffle in the constructor and the
reshuffle on matchup exhaustion, are injected: the constructor shuffle as a
function applied to the deterministically enumerated matchup list, and the
reshuffles as an oracle list of replacement matchup lists.
-/

/-- A Python value that is either an int or a pair of an int and a string.
The assertion in generate_schedule compares num_teams % 2, an int, with the
tuple (0, message), so the comparison is between the two constructors. -/
inductive PyVal where
  | int : Int → PyVal
  | pair : Int → String → PyVal
  deriving DecidableEq, Repr

/-- The message inside the tuple the assertion compares against. -/
def even_assert_message : String :=
  "This scheduling algorithm assumes an even number of teams."

/-- A Match row as created by the generator: home side, away side, status. -/
structure HMatch where
  home_team : Nat
  away_team : Nat
  status : String
  deriving DecidableEq, Repr

/-- The home and away assignment and tracker update step,
league/services.py lines 64 to 85: team1 is home when its own home count
does not exceed its own away count, otherwise team2 is home; then the home
count of the home team and the away count of the away team are incremented. -/
def schedule_pair (tracker : Nat → Int × Int) (team1 team2 : Nat) :
    HMatch × (Nat → Int × Int) :=
  let home_team := if (tracker team1).1 ≤ (tracker team1).2 then team1 else team2
  let away_team := if home_team = team1 then team2 else team1
  let tracker1 := fun id =>
    if id = home_team then ((tracker id).1 + 1, (tracker id).2) else tracker id
  let tracker2 := fun id =>
    if id = away_team then ((tracker1 id).1, (tracker1 id).2 + 1) else tracker1 id
  ({ home_team := home_team, away_team := away_team, status := "Scheduled" }, tracker2)

/-- ScheduleService._generate_all_matchups (league/services.py lines 16 to
28), before the shuffle: enumerate ordered pairs of distinct teams, keeping
a pair only when its unordered version (the frozenset, modelled as the
min max normal form) is not yet in the history set. -/
def generate_all_matchups (teams : List Nat) : List (Nat × Nat) :=
  (teams.foldl (fun acc team1 =>
    teams.foldl (fun acc2 team2 =>
      if team1 ≠ team2 ∧
          ¬ acc2.2.contains (min team1 team2, max team1 team2) then
        (acc2.1 ++ [(team1, team2)], (min team1 team2, max team1 team2) :: acc2.2)
      else acc2) acc) (([], []) : List (Nat × Nat) × List (Nat × Nat))).1

/-- The mutable state threaded through the scheduling loops: the current
matchup list, the index into it, the home away tracker, and the oracle of
lists that future reshuffles produce. -/
structure GenState where
  all_matchups : List (Nat × Nat)
  matchup_index : Nat
  tracker : Nat → Int × Int
  reshuffle_oracle : List (List (Nat × Nat))

/-- The inner while loop of generate_schedule (league/services.py lines 52
to 85) for one match night, with explicit fuel for the unbounded skip and
reshuffle cycling; on an exhausted matchup list the next oracle entry
replaces it and the index resets (an empty oracle keeps the list unchanged,
modelling a shuffle in place). Reading past the end of an empty matchup
list is the IndexError the source would raise. -/
def scheduleNight (num_teams : Nat) :
    Nat → GenState → List Nat → Nat → List HMatch →
    Except String (List HMatch × GenState)
  | 0, _, _, _, _ => Except.error "fuel exhausted"
  | fuel + 1, st, teams_scheduled, matches_for_night, acc =>
      if matches_for_night < num_teams / 2 then
        let st1 :=
          if st.all_matchups.length ≤ st.matchup_index then
            match st.reshuffle_oracle with
            | perm :: rest =>
                { st with all_matchups := perm, matchup_index := 0,
                          reshuffle_oracle := rest }
            | [] => { st with matchup_index := 0 }
          else st
        match st1.all_matchups.get? st1.matchup_index with
        | none => Except.error "IndexError"
        | some (team1, team2) =>
            if team1 ∈ teams_scheduled ∨ team2 ∈ teams_scheduled then
              scheduleNight num_teams fuel
                { st1 with matchup_index := st1.matchup_index + 1 }
                teams_scheduled matches_for_night acc
            else
              let r := schedule_pair st1.tracker team1 team2
              scheduleNight num_teams fuel
                { st1 with tracker := r.2, matchup_index := st1.matchup_index + 1 }
                (r.1.home_team :: r.1.away_team :: teams_scheduled)
                (matches_for_night + 1) (acc ++ [r.1])
      else Except.ok (acc, st)

/-- A MatchNight with its created matches; the date is in days,
start_date + 7 * week as in get_next_match_date. -/
structure WeekNight where
  date : Nat
  night_matches : List HMatch
  deriving DecidableEq, Repr

/-- The outer week loop of generate_schedule (league/services.py lines 41
to 87), recursing on the remaining weeks. -/
def scheduleWeeks (num_teams start_date : Nat) :
    Nat → Nat → GenState → List WeekNight →
    Except String (List WeekNight × GenState)
  | 0, _, st, acc => Except.ok (acc, st)
  | remaining + 1, current_week, st, acc =>
      let date := start_date + 7 * current_week
      match scheduleNight num_teams
          ((st.all_matchups.length + num_teams * num_teams + 2) * (num_teams + 2))
          st [] 0 [] with
      | Except.error e => Except.error e
      | Except.ok (ms, st2) =>
          scheduleWeeks num_teams start_date remaining (current_week + 1) st2
            (acc ++ [{ date := date, night_matches := ms }])

/-- ScheduleService after __init__ (league/services.py lines 7 to 14):
start date in days, week count, team ids, the constructor shuffle, and the
reshuffle oracle. -/
structure ScheduleService where
  start_date : Nat
  num_weeks : Nat
  teams : List Nat
  shuffle0 : List (Nat × Nat) → List (Nat × Nat)
  reshuffle_oracle : List (List (Nat × Nat))

/-- ScheduleService.generate_schedule (league/services.py lines 30 to 87).
The assertion on line 36 reads
assert num_teams % 2 == (0, "This scheduling algorithm assumes an even
number of teams."): the parenthesised message makes the compared value a
tuple, so the asserted expression is an int to tuple comparison; the loop
runs only when that comparison holds, otherwise AssertionError is raised. -/
def ScheduleService.generate_schedule (svc : ScheduleService) :
    Except String (List WeekNight) :=
  let num_teams := svc.teams.length
  if PyVal.int ((num_teams : Int) % 2) = PyVal.pair 0 even_assert_message then
    let all0 := svc.shuffle0 (generate_all_matchups svc.teams)
    let st0 : GenState :=
      { all_matchups := all0, matchup_index := 0,
        tracker := fun _ => (0, 0), reshuffle_oracle := svc.reshuffle_oracle }
    match scheduleWeeks num_teams svc.start_date svc.num_weeks 0 st0 [] with
    | Except.ok (weeks, _) => Except.ok weeks
    | Except.error e => Except.error e
  else Except.error "AssertionError"

/-- The home assignment rule exactly as the claim states it, written from
the spec for comparison with schedule_pair: the roster with the lower
running home minus away differential is home, ties broken by the pairing
order, team1 first. -/
def claim_lower_differential_home (tracker : Nat → Int × Int)
    (team1 team2 : Nat) : Nat :=
  let d1 := (tracker team1).1 - (tracker team1).2
  let d2 := (tracker team2).1 - (tracker team2).2
  if d1 < d2 then team1 else if d2 < d1 then team2 else team1

/-
TeamPlayerSerializer.create, team/serializers.py lines 25 to 37.
-/

/-- The columns of the TeamPlayer model (core/models.py lines 170 to 189
and migration 0001), against which Django resolves order_by column names. -/
def teamPlayerFields : List String :=
  ["id", "team_season", "player", "handicap", "wins", "losses",
   "is_captain", "is_active"]

/-- The validated_data reaching TeamPlayerSerializer.create: the writable
serializer fields, with the referenced Player row flattened to its id and
name. -/
structure TPInput where
  team_season : Nat
  player : Nat
  player_name : String
  handicap : Option Int
  is_active : Option Bool
  deriving DecidableEq, Repr

/-- TeamPlayerSerializer.create (team/serializers.py lines 25 to 37) over a
database of existing TeamPlayer rows. Wins and losses are forced to zero.
When no handicap is supplied the source evaluates
TeamPlayer.objects.filter(player=player).order_by(-created_at).first();
order_by resolves created_at against the model columns, and TeamPlayer has
no created_at column, so Django raises FieldError when the queryset is
evaluated. The branch guarded by the membership test is therefore dead; it
carries the inheritance the source attempts, reading the handicap of the
first row of the ordered queryset, defaulting to 3 with no prior row. -/
def teamPlayerCreate (db : List TeamPlayer) (input : TPInput) :
    Except String TeamPlayer :=
  let active := input.is_active.getD true
  match input.handicap with
  | some h =>
      Except.ok { id := db.length + 1, team_season := input.team_season,
                  player := input.player, player_name := input.player_name,
                  handicap := h, wins := 0, losses := 0,
                  is_captain := false, is_active := active }
  | none =>
      if "created_at" ∈ teamPlayerFields then
        let last_record := (db.filter (fun r => r.player = input.player)).head?
        Except.ok { id := db.length + 1, team_season := input.team_season,
                    player := input.player, player_name := input.player_name,
                    handicap := (last_record.map (fun r => r.handicap)).getD 3,
                    wins := 0, losses := 0,
                    is_captain := false, is_active := active }
      else
        Except.error "FieldError: cannot resolve keyword created_at into field"

/-
Concrete rows used by the counterexamples and witnesses.
-/

/-- A fresh home roster row. -/
def teamA : TeamSeason :=
  { id := 1, team_name := "A", captain_name := "ca",
    wins := 0, losses := 0, games_won := 0, games_lost := 0 }

/-- A fresh away roster row. -/
def teamB : TeamSeason :=
  { id := 2, team_name := "B", captain_name := "cb",
    wins := 0, losses := 0, games_won := 0, games_lost := 0 }

/-- A completed match with a determined home winner: scores 20 to 10,
race-to 20 and 26, snapshot not yet set. -/
def matchDone : Match :=
  { match_night_start_time := "19:00", match_time := some "19:00",
    home_team := teamA, away_team := teamB,
    home_score := some 20, away_score := some 10,
    home_race_to := some 20, away_race_to := some 26,
    winner := none, status := "completed",
    team_snapshot := none, lineups := none }

/-- matchDone with the winner column already set, an already completed row. -/
def matchDoneAgain : Match := { matchDone with winner := some "home" }

/-- The result of saving matchDoneAgain once. -/
def matchDoneAgain1 : Match :=
  { matchDoneAgain with
      team_snapshot := some { home_team := teamEntryOf teamA
                              away_team := teamEntryOf teamB }
      home_team := { teamA with wins := 1, games_won := 20 }
      away_team := { teamB with losses := 1, games_lost := 10 } }

/-- The result of saving matchDoneAgain twice. -/
def matchDoneAgain2 : Match :=
  { matchDoneAgain with
      team_snapshot := some
        { home_team := teamEntryOf { teamA with wins := 1, games_won := 20 }
          away_team := teamEntryOf { teamB with losses := 1, games_lost := 10 } }
      home_team := { teamA with wins := 2, games_won := 40 }
      away_team := { teamB with losses := 2, games_lost := 20 } }

/-- The result of saving matchDone once. -/
def matchDoneSaved : Match :=
  { matchDone with
      winner := some "home"
      team_snapshot := some { home_team := teamEntryOf teamA
                              away_team := teamEntryOf teamB }
      home_team := { teamA with wins := 1, games_won := 20 }
      away_team := { teamB with losses := 1, games_lost := 10 } }

/-- A completed match with no scores, no race-to values, and lineups
present: by the claims, completing it should compute race-to 20 and 26. -/
def matchNoRace : Match :=
  { match_night_start_time := "19:00", match_time := some "19:00",
    home_team := teamA, away_team := teamB,
    home_score := none, away_score := none,
    home_race_to := none, away_race_to := none,
    winner := none, status := "completed",
    team_snapshot := none,
    lineups := some { home_team := [5, 5], away_team := [2, 2] } }

/-- The result of saving matchNoRace: only the snapshot is added. -/
def matchNoRaceSaved : Match :=
  { matchNoRace with
      team_snapshot := some { home_team := teamEntryOf teamA
                              away_team := teamEntryOf teamB } }

/-- A completed match with no scores and no lineups. -/
def matchIncomplete : Match :=
  { match_night_start_time := "19:00", match_time := some "19:00",
    home_team := teamA, away_team := teamB,
    home_score := none, away_score := none,
    home_race_to := none, away_race_to := none,
    winner := none, status := "completed",
    team_snapshot := none, lineups := none }

/-- The result of saving matchIncomplete: only the snapshot is added. -/
def matchIncompleteSaved : Match :=
  { matchIncomplete with
      team_snapshot := some { home_team := teamEntryOf teamA
                              away_team := teamEntryOf teamB } }

/-- A scheduled match carrying lineups with handicap sums 10 and 4. -/
def matchWithLineups : Match :=
  { match_night_start_time := "19:00", match_time := some "19:00",
    home_team := teamA, away_team := teamB,
    home_score := none, away_score := none,
    home_race_to := none, away_race_to := none,
    winner := none, status := "Scheduled",
    team_snapshot := none,
    lineups := some { home_team := [5, 5], away_team := [2, 2] } }

/-- The result of calculate_race_to on matchWithLineups. -/
def matchWithLineupsCalc : Match :=
  { matchWithLineups with home_race_to := some 20, away_race_to := some 26 }

/-- A scheduled parent match with empty scores. -/
def matchParent : Match :=
  { match_night_start_time := "19:00", match_time := some "19:00",
    home_team := teamA, away_team := teamB,
    home_score := none, away_score := none,
    home_race_to := none, away_race_to := none,
    winner := none, status := "Scheduled",
    team_snapshot := none, lineups := none }

/-- A home side roster player. -/
def playerH : TeamPlayer :=
  { id := 1, team_season := 1, player := 1, player_name := "hp",
    handicap := 5, wins := 0, losses := 0,
    is_captain := false, is_active := true }

/-- An away side roster player. -/
def playerA : TeamPlayer :=
  { id := 2, team_season := 2, player := 2, player_name := "ap",
    handicap := 4, wins := 0, losses := 0,
    is_captain := false, is_active := true }

/-- A completed game, 5 to 3 with race-to 5, winner not yet set. -/
def gameDone : Game :=
  { match_row := matchParent, home_player := playerH, away_player := playerA,
    home_race_to := some 5, away_race_to := some 5,
    home_score := some 5, away_score := some 3,
    winner := none, status := "completed", player_snapshot := none }

/-- The result of saving gameDone: home wins the game and the parent match
score moves from empty to 1 and 0. -/
def gameDoneSaved : Game :=
  { gameDone with
      winner := some "home"
      player_snapshot := some { home_player := playerEntryOf playerH
                                away_player := playerEntryOf playerA }
      match_row := { matchParent with home_score := some 1
                                      away_score := some 0 } }

/-- gameDone with its winner already recorded, an already completed game. -/
def gameWon : Game := { gameDone with winner := some "home" }

/-- The result of saving gameWon again: only the snapshot is retaken. -/
def gameWonSaved : Game :=
  { gameWon with
      player_snapshot := some { home_player := playerEntryOf playerH
                                away_player := playerEntryOf playerA } }

/-- A completed game with its winner already recorded, used to observe the
snapshot overwrite on a further save. -/
def gameC1 : Game :=
  { match_row := matchParent, home_player := playerH, away_player := playerA,
    home_race_to := some 1, away_race_to := some 1,
    home_score := some 5, away_score := some 3,
    winner := some "home", status := "completed", player_snapshot := none }

/-- The result of saving gameC1: the player snapshot is written from the
current player records. -/
def gameC1Saved : Game :=
  { gameC1 with
      player_snapshot := some { home_player := playerEntryOf playerH
                                away_player := playerEntryOf playerA } }

/-- A schedule service over three rosters, one week, with the identity
shuffle. -/
def svcOdd : ScheduleService :=
  { start_date := 0, num_weeks := 1, teams := [1, 2, 3],
    shuffle0 := fun l => l, reshuffle_oracle := [] }

/-- A tracker state in which roster 1 has differential 1 and roster 2 has
differential 2. -/
def trackerEx : Nat → Int × Int :=
  fun i => if i = 1 then (1, 0) else if i = 2 then (2, 0) else (0, 0)

/-- The all zero tracker state. -/
def trackerZero : Nat → Int × Int := fun _ => (0, 0)

/-- A stored roster player row for player 7 with handicap 7. -/
def priorRow : TeamPlayer :=
  { id := 1, team_season := 10, player := 7, player_name := "p",
    handicap := 7, wins := 5, losses := 10,
    is_captain := false, is_active := true }

/-- A creation payload for player 7 on a new roster with no handicap. -/
def rejoinInput : TPInput :=
  { team_season := 11, player := 7, player_name := "p",
    handicap := none, is_active := none }

/- Preservation lemmas about the Match save pipeline. -/

@[simp] theorem put_team_match_time (m : Match) (t : TeamSeason) :
    (m.put_team t).match_time = m.match_time := by
  unfold Match.put_team; split_ifs <;> rfl

@[simp] theorem put_team_home_score (m : Match) (t : TeamSeason) :
    (m.put_team t).home_score = m.home_score := by
  unfold Match.put_team; split_ifs <;> rfl

@[simp] theorem put_team_away_score (m : Match) (t : TeamSeason) :
    (m.put_team t).away_score = m.away_score := by
  unfold Match.put_team; split_ifs <;> rfl

@[simp] theorem put_team_home_race_to (m : Match) (t : TeamSeason) :
    (m.put_team t).home_race_to = m.home_race_to := by
  unfold Match.put_team; split_ifs <;> rfl

@[simp] theorem put_team_away_race_to (m : Match) (t : TeamSeason) :
    (m.put_team t).away_race_to = m.away_race_to := by
  unfold Match.put_team; split_ifs <;> rfl

@[simp] theorem put_team_winner (m : Match) (t : TeamSeason) :
    (m.put_team t).winner = m.winner := by
  unfold Match.put_team; split_ifs <;> rfl

@[simp] theorem put_team_status (m : Match) (t : TeamSeason) :
    (m.put_team t).status = m.status := by
  unfold Match.put_team; split_ifs <;> rfl

@[simp] theorem put_team_team_snapshot (m : Match) (t : TeamSeason) :
    (m.put_team t).team_snapshot = m.team_snapshot := by
  unfold Match.put_team; split_ifs <;> rfl

theorem update_team_records_preserves (m : Match) (a b : TeamSeason) (m' : Match)
    (h : m.update_team_records a b = some m') :
    m'.match_time = m.match_time ∧
    m'.home_score = m.home_score ∧
    m'.away_score = m.away_score ∧
    m'.home_race_to = m.home_race_to ∧
    m'.away_race_to = m.away_race_to ∧
    m'.winner = m.winner ∧
    m'.status = m.status ∧
    m'.team_snapshot = m.team_snapshot := by
  unfold Match.update_team_records at h
  split at h
  case _ winner_games loser_games hw hl =>
    simp only [Option.some.injEq] at h
    subst h
    simp
  case _ => exact absurd h (by simp)

theorem update_match_winner_preserves (m : Match) (m' : Match)
    (h : m.update_match_winner = some m') :
    m'.match_time = m.match_time ∧
    m'.home_score = m.home_score ∧
    m'.away_score = m.away_score ∧
    m'.home_race_to = m.home_race_to ∧
    m'.away_race_to = m.away_race_to ∧
    m'.status = m.status ∧
    m'.team_snapshot = m.team_snapshot := by
  unfold Match.update_match_winner at h
  split at h
  case _ hs as_ hh ha =>
    rcases hr : m.home_race_to with _ | hrt
    · rw [hr] at h; exact absurd h (by simp)
    · rw [hr] at h
      simp only at h
      split_ifs at h with hc1
      · have := update_team_records_preserves _ _ _ _ h
        simp_all
      · rcases ar : m.away_race_to with _ | art
        · rw [ar] at h; exact absurd h (by simp)
        · rw [ar] at h
          simp only at h
          split_ifs at h with hc2
          · have := update_team_records_preserves _ _ _ _ h
            simp_all
          · have hm' : m = m' := Option.some.inj h
            subst hm'; simp_all
  case _ =>
    have hm' : m = m' := Option.some.inj h
    subst hm'; simp_all

theorem match_save_preserves (m : Match) (m' : Match) (h : m.save = some m') :
    m'.home_score = m.home_score ∧
    m'.away_score = m.away_score ∧
    m'.home_race_to = m.home_race_to ∧
    m'.away_race_to = m.away_race_to ∧
    m'.status = m.status := by
  unfold Match.save at h
  by_cases hmt : m.match_time = none
  · rw [if_pos hmt] at h
    dsimp only at h
    split_ifs at h with hc
    · have hp := update_match_winner_preserves _ _ h
      simp only [Match.set_team_snapshot] at hp
      simp_all
    · simp only [Option.some.injEq] at h
      subst h; simp
  · rw [if_neg hmt] at h
    dsimp only at h
    split_ifs at h with hc
    · have hp := update_match_winner_preserves _ _ h
      simp only [Match.set_team_snapshot] at hp
      simp_all
    · simp only [Option.some.injEq] at h
      subst h; exact ⟨rfl, rfl, rfl, rfl, rfl⟩

/-- Shape of Match.save when the status is completed, both scores and the
home race-to are present, the home score meets its race-to, and the two
rosters are distinct rows: snapshot taken from the pre save records, winner
set to home, home roster credited with the win and its own score, away
roster debited with the loss and its own score. -/
theorem match_save_home_win (m : Match) (hs as_ hrt : Int)
    (hst : m.status = "completed") (hh : m.home_score = some hs)
    (ha : m.away_score = some as_) (hhrt : m.home_race_to = some hrt)
    (hwin : hrt ≤ hs) (hid : m.home_team.id ≠ m.away_team.id) :
    m.save = some { m with
      match_time := m.match_time.or (some m.match_night_start_time)
      team_snapshot := some { home_team := teamEntryOf m.home_team
                              away_team := teamEntryOf m.away_team }
      winner := some "home"
      home_team := { m.home_team with
                       wins := m.home_team.wins + 1
                       games_won := m.home_team.games_won + hs }
      away_team := { m.away_team with
                       losses := m.away_team.losses + 1
                       games_lost := m.away_team.games_lost + as_ } } := by
  obtain ⟨nst, mt, hteam, ateam, hsc, asc, hr, ar, w, st, snap, lus⟩ := m
  simp only at hst hh ha hhrt hid ⊢
  subst hst hh ha hhrt
  have hid2 : ateam.id ≠ hteam.id := Ne.symm hid
  cases mt <;>
    simp [Match.save, Match.set_team_snapshot, Match.update_match_winner,
          Match.update_team_records, Match.put_team, hwin, hid, hid2, Option.or]

/-- Shape of Match.save in the symmetric away win case. -/
theorem match_save_away_win (m : Match) (hs as_ hrt art : Int)
    (hst : m.status = "completed") (hh : m.home_score = some hs)
    (ha : m.away_score = some as_) (hhrt : m.home_race_to = some hrt)
    (hart : m.away_race_to = some art)
    (hlose : ¬ hrt ≤ hs) (hwin : art ≤ as_)
    (hid : m.home_team.id ≠ m.away_team.id) :
    m.save = some { m with
      match_time := m.match_time.or (some m.match_night_start_time)
      team_snapshot := some { home_team := teamEntryOf m.home_team
                              away_team := teamEntryOf m.away_team }
      winner := some "away"
      away_team := { m.away_team with
                       wins := m.away_team.wins + 1
                       games_won := m.away_team.games_won + as_ }
      home_team := { m.home_team with
                       losses := m.home_team.losses + 1
                       games_lost := m.home_team.games_lost + hs } } := by
  obtain ⟨nst, mt, hteam, ateam, hsc, asc, hr, ar, w, st, snap, lus⟩ := m
  simp only at hst hh ha hhrt hart hid ⊢
  subst hst hh ha hhrt hart
  have hid2 : ateam.id ≠ hteam.id := Ne.symm hid
  cases mt <;>
    simp [Match.save, Match.set_team_snapshot, Match.update_match_winner,
          Match.update_team_records, Match.put_team, hlose, hwin, hid, hid2,
          Option.or]

/-- Shape of Match.save when the status is completed but neither score meets
its race-to: the snapshot is still retaken, and nothing else changes. -/
theorem match_save_no_win (m : Match) (hs as_ hrt art : Int)
    (hst : m.status = "completed") (hh : m.home_score = some hs)
    (ha : m.away_score = some as_) (hhrt : m.home_race_to = some hrt)
    (hart : m.away_race_to = some art)
    (hlose : ¬ hrt ≤ hs) (halose : ¬ art ≤ as_) :
    m.save = some { m with
      match_time := m.match_time.or (some m.match_night_start_time)
      team_snapshot := some { home_team := teamEntryOf m.home_team
                              away_team := teamEntryOf m.away_team } } := by
  obtain ⟨nst, mt, hteam, ateam, hsc, asc, hr, ar, w, st, snap, lus⟩ := m
  simp only at hst hh ha hhrt hart ⊢
  subst hst hh ha hhrt hart
  cases mt <;>
    simp [Match.save, Match.set_team_snapshot, Match.update_match_winner,
          Match.update_team_records, Match.put_team, hlose, halose, Option.or]

/-- Game.update_game_winner with winner unset, both scores and both race-to
values present: the three outcomes, with the parent match score moving by
exactly one on a home or away win and not at all on a tie. -/
theorem update_game_winner_spec (g : Game) (hs as_ hrt art : Int) (g' : Game)
    (hw : g.winner = none) (hh : g.home_score = some hs)
    (ha : g.away_score = some as_) (hhrt : g.home_race_to = some hrt)
    (hart : g.away_race_to = some art)
    (h : g.update_game_winner = some g') :
    (hrt ≤ hs →
        g'.winner = some "home" ∧
        g'.match_row.home_score = some (g.match_row.home_score.getD 0 + 1) ∧
        g'.match_row.away_score = some (g.match_row.away_score.getD 0)) ∧
    (¬ hrt ≤ hs → art ≤ as_ →
        g'.winner = some "away" ∧
        g'.match_row.home_score = some (g.match_row.home_score.getD 0) ∧
        g'.match_row.away_score = some (g.match_row.away_score.getD 0 + 1)) ∧
    (¬ hrt ≤ hs → ¬ art ≤ as_ →
        g'.winner = some "tie" ∧
        g'.match_row.home_score = some (g.match_row.home_score.getD 0) ∧
        g'.match_row.away_score = some (g.match_row.away_score.getD 0)) := by
  obtain ⟨mr, hp, ap, ghr, gar, ghs, gas, gw, gst, gsnap⟩ := g
  simp only at hw hh ha hhrt hart h ⊢
  subst hw hh ha hhrt hart
  unfold Game.update_game_winner at h
  dsimp only at h
  by_cases hc1 : hrt ≤ hs
  · rw [if_pos hc1] at h
    rw [Option.map_eq_some'] at h
    obtain ⟨ms, hms, hg'⟩ := h
    subst hg'
    have hp := match_save_preserves _ _ hms
    refine ⟨fun _ => ⟨rfl, ?_, ?_⟩, fun hn _ => absurd hc1 hn,
            fun hn _ => absurd hc1 hn⟩ <;> simp_all
  · rw [if_neg hc1] at h
    by_cases hc2 : art ≤ as_
    · rw [if_pos hc2] at h
      rw [Option.map_eq_some'] at h
      obtain ⟨ms, hms, hg'⟩ := h
      subst hg'
      have hp := match_save_preserves _ _ hms
      refine ⟨fun hc => absurd hc hc1, fun _ _ => ⟨rfl, ?_, ?_⟩,
              fun _ hn => absurd hc2 hn⟩ <;> simp_all
    · rw [if_neg hc2] at h
      rw [Option.map_eq_some'] at h
      obtain ⟨ms, hms, hg'⟩ := h
      subst hg'
      have hp := match_save_preserves _ _ hms
      refine ⟨fun hc => absurd hc hc1, fun _ hc => absurd hc hc2,
              fun _ _ => ⟨rfl, ?_, ?_⟩⟩ <;> simp_all

/-- Game.update_game_winner never touches the player snapshot: whichever
branch runs, only the winner and the parent match row change. -/
theorem update_game_winner_preserves_players (g g' : Game)
    (h : g.update_game_winner = some g') :
    g'.player_snapshot = g.player_snapshot := by
  obtain ⟨mr, hp, ap, ghr, gar, ghs, gas, gw, gst, gsnap⟩ := g
  simp only at h ⊢
  unfold Game.update_game_winner at h
  rcases gw with _ | w
  · rcases ghs with _ | hs
    · dsimp only at h
      simp only [Option.some.injEq] at h
      subst h; rfl
    · rcases gas with _ | as_
      · dsimp only at h
        simp only [Option.some.injEq] at h
        subst h; rfl
      · dsimp only at h
        rcases ghr with _ | hrt
        · exact absurd h (by simp)
        · dsimp only at h
          split_ifs at h with hc1
          · rw [Option.map_eq_some'] at h
            obtain ⟨ms, hms, hg'⟩ := h
            subst hg'; rfl
          · rcases gar with _ | art
            · exact absurd h (by simp)
            · dsimp only at h
              split_ifs at h with hc2
              · rw [Option.map_eq_some'] at h
                obtain ⟨ms, hms, hg'⟩ := h
                subst hg'; rfl
              · rw [Option.map_eq_some'] at h
                obtain ⟨ms, hms, hg'⟩ := h
                subst hg'; rfl
  · dsimp only at h
    simp only [Option.some.injEq] at h
    subst h; rfl

/-
Claim theorems.
-/

/-- Claim C1, counterexample. The claim states that once a completed Match
has its team_snapshot set, any further save of the row leaves the snapshot
byte identical. On matchDone, a completed match whose first save sets the
snapshot and increments the home roster record, a second save of the
unchanged row recomputes the snapshot from the incremented records, so the
stored snapshot differs between the first and the second save. -/
theorem c1_snapshot_not_immutable_cex :
    (matchDone.save).map (fun m => m.team_snapshot) ≠
    ((matchDone.save).bind Match.save).map (fun m => m.team_snapshot) := by
  decide

/-- Claim C1, amended. Neither snapshot is write once: every save of a
Match in status completed overwrites team_snapshot with the values of the
two roster records as they stand at that save, and every save of a Game in
status completed overwrites player_snapshot with the values of the two
player records as they stand at that save; a snapshot stays byte identical
only while the corresponding live records do not change. -/
theorem c1_snapshot_recomputed_on_save (m m' : Match) (g g' : Game)
    (hstm : m.status = "completed") (hsavem : m.save = some m')
    (hstg : g.status = "completed") (hsaveg : g.save = some g') :
    m'.team_snapshot = some { home_team := teamEntryOf m.home_team
                              away_team := teamEntryOf m.away_team } ∧
    g'.player_snapshot = some { home_player := playerEntryOf g.home_player
                                away_player := playerEntryOf g.away_player } := by
  constructor
  · obtain ⟨nst, mt, hteam, ateam, hsc, asc, hr, ar, w, st, snap, lus⟩ := m
    simp only at hstm hsavem ⊢
    subst hstm
    cases mt <;>
      (simp [Match.save, Match.set_team_snapshot] at hsavem;
       have hp := update_match_winner_preserves _ _ hsavem;
       simp_all)
  · obtain ⟨mr, hp, ap, ghr, gar, ghs, gas, gw, gst, gsnap⟩ := g
    simp only at hstg hsaveg ⊢
    subst hstg
    rcases ghr with _ | hrt <;> rcases gar with _ | art <;>
      (simp [Game.save, Game.set_player_snapshot] at hsaveg;
       have hq := update_game_winner_preserves_players _ _ hsaveg;
       simp_all)

/-- Claim C1, witness for the amended theorem at matchIncomplete and
gameC1. -/
theorem c1_snapshot_recomputed_on_save_witness :
    (matchIncomplete.status = "completed" ∧
     matchIncomplete.save = some matchIncompleteSaved ∧
     gameC1.status = "completed" ∧ gameC1.save = some gameC1Saved) ∧
    (matchIncompleteSaved.team_snapshot =
       some { home_team := teamEntryOf matchIncomplete.home_team
              away_team := teamEntryOf matchIncomplete.away_team } ∧
     gameC1Saved.player_snapshot =
       some { home_player := playerEntryOf gameC1.home_player
              away_player := playerEntryOf gameC1.away_player }) :=
  ⟨⟨rfl, by decide, rfl, by decide⟩,
   c1_snapshot_recomputed_on_save matchIncomplete matchIncompleteSaved gameC1
     gameC1Saved rfl (by decide) rfl (by decide)⟩

/-- Claim C6, counterexample. The claim states that a Match transitioning
to completed with lineups present and race-to unset gets both race-to
values computed from the lineups (here the sums are 10 and 4, so 20 and
26). Saving matchNoRace, which is exactly in that state, leaves both
race-to fields empty: Match.save never invokes calculate_race_to, and no
caller of calculate_race_to exists in the repository. -/
theorem c6_completed_save_leaves_race_to_unset_cex :
    matchNoRace.status = "completed" ∧
    matchNoRace.lineups = some { home_team := [5, 5], away_team := [2, 2] } ∧
    matchNoRace.home_race_to = none ∧ matchNoRace.away_race_to = none ∧
    (matchNoRace.save).map (fun m => (m.home_race_to, m.away_race_to)) =
      some (none, none) := by
  decide

/-- Claim C6, amended. Match.save never computes race-to values: every
successful save leaves both race-to fields exactly as they were; the
computation exists only in the separate calculate_race_to method, which no
code path invokes, and which recomputes unconditionally when called. -/
theorem c6_save_never_computes_race_to (m m' : Match)
    (hsave : m.save = some m') :
    m'.home_race_to = m.home_race_to ∧ m'.away_race_to = m.away_race_to :=
  ⟨(match_save_preserves m m' hsave).2.2.1,
   (match_save_preserves m m' hsave).2.2.2.1⟩

/-- Claim C6, witness for the amended theorem at matchNoRace. -/
theorem c6_save_never_computes_race_to_witness :
    matchNoRace.save = some matchNoRaceSaved ∧
    matchNoRaceSaved.home_race_to = matchNoRace.home_race_to ∧
    matchNoRaceSaved.away_race_to = matchNoRace.away_race_to :=
  ⟨by decide,
   (c6_save_never_computes_race_to matchNoRace matchNoRaceSaved (by decide)).1,
   (c6_save_never_computes_race_to matchNoRace matchNoRaceSaved (by decide)).2⟩

/-- Claim C7, counterexample. The claim states that generate_schedule does
not crash on an odd roster count of at least 3. With three rosters and one
week it raises AssertionError: the assertion on line 36 of
league/services.py compares num_teams % 2 with the tuple
(0, message), which never holds, so the assertion fails before any week is
scheduled. -/
theorem c7_odd_roster_generate_crashes_cex :
    svcOdd.teams.length = 3 ∧ svcOdd.num_weeks = 1 ∧
    svcOdd.generate_schedule = Except.error "AssertionError" :=
  ⟨rfl, rfl, rfl⟩

/-- Claim C7, amended. generate_schedule raises AssertionError for every
input, odd or even roster count alike, because its evenness assertion
compares an integer with a tuple and therefore always fails; no match
night is ever generated. -/
theorem c7_generate_schedule_always_raises (svc : ScheduleService) :
    svc.generate_schedule = Except.error "AssertionError" := by
  unfold ScheduleService.generate_schedule
  rw [if_neg (fun hcontra => PyVal.noConfusion hcontra)]

/-- Claim C8, counterexample. The claim states that the roster with the
lower running home minus away differential is assigned home. In trackerEx
roster 1 has differential 1 and roster 2 has differential 2, so the claim
rule (claim_lower_differential_home) picks roster 1, but the generator
assigns roster 2 as home, because the code only compares roster 1 home
count against roster 1 away count and never consults roster 2. -/
theorem c8_lower_differential_violated_cex :
    (trackerEx 1).1 - (trackerEx 1).2 < (trackerEx 2).1 - (trackerEx 2).2 ∧
    claim_lower_differential_home trackerEx 1 2 = 1 ∧
    (schedule_pair trackerEx 1 2).1.home_team = 2 := by
  decide

/-- Claim C8, amended. The assignment step consults only team1: team1 is
home exactly when its own home count does not exceed its own away count,
otherwise team2 is home; after the assignment the home roster gains a home
appearance and the away roster gains an away appearance in the tracker. -/
theorem c8_assignment_uses_only_team1 (tracker : Nat → Int × Int)
    (team1 team2 : Nat) (hne : team1 ≠ team2) :
    ((schedule_pair tracker team1 team2).1.home_team =
        if (tracker team1).1 ≤ (tracker team1).2 then team1 else team2) ∧
    ((schedule_pair tracker team1 team2).1.away_team =
        if (tracker team1).1 ≤ (tracker team1).2 then team2 else team1) ∧
    ((schedule_pair tracker team1 team2).1.home_team = team1 ↔
        (tracker team1).1 ≤ (tracker team1).2) ∧
    ((schedule_pair tracker team1 team2).2
        ((schedule_pair tracker team1 team2).1.home_team) =
      ((tracker ((schedule_pair tracker team1 team2).1.home_team)).1 + 1,
       (tracker ((schedule_pair tracker team1 team2).1.home_team)).2)) ∧
    ((schedule_pair tracker team1 team2).2
        ((schedule_pair tracker team1 team2).1.away_team) =
      ((tracker ((schedule_pair tracker team1 team2).1.away_team)).1,
       (tracker ((schedule_pair tracker team1 team2).1.away_team)).2 + 1)) := by
  have hne2 : team2 ≠ team1 := Ne.symm hne
  by_cases hcond : (tracker team1).1 ≤ (tracker team1).2 <;>
    simp [schedule_pair, hcond, hne, hne2]

/-- Claim C8, witness for the amended theorem on the all zero tracker. -/
theorem c8_assignment_uses_only_team1_witness :
    ((1 : Nat) ≠ 2) ∧
    (((schedule_pair trackerZero 1 2).1.home_team =
        if (trackerZero 1).1 ≤ (trackerZero 1).2 then 1 else 2) ∧
     ((schedule_pair trackerZero 1 2).1.away_team =
        if (trackerZero 1).1 ≤ (trackerZero 1).2 then 2 else 1) ∧
     ((schedule_pair trackerZero 1 2).1.home_team = 1 ↔
        (trackerZero 1).1 ≤ (trackerZero 1).2) ∧
     ((schedule_pair trackerZero 1 2).2
        ((schedule_pair trackerZero 1 2).1.home_team) =
       ((trackerZero ((schedule_pair trackerZero 1 2).1.home_team)).1 + 1,
        (trackerZero ((schedule_pair trackerZero 1 2).1.home_team)).2)) ∧
     ((schedule_pair trackerZero 1 2).2
        ((schedule_pair trackerZero 1 2).1.away_team) =
       ((trackerZero ((schedule_pair trackerZero 1 2).1.away_team)).1,
        (trackerZero ((schedule_pair trackerZero 1 2).1.away_team)).2 + 1))) :=
  ⟨by decide, c8_assignment_uses_only_team1 trackerZero 1 2 (by decide)⟩

/-- Claim C9. Creating a roster player without an explicit handicap for a
player who already has a roster row (here with handicap 7) is supposed to
inherit that handicap and zero the records; instead the creation path
raises FieldError, because it orders the prior rows by a created_at column
that the TeamPlayer model does not have. The repository tests
(test_player_retains_rating_in_new_season and neighbours) assert the
inheritance outcome, so the code contradicts its own tests. -/
theorem c9_rejoin_without_handicap_raises :
    rejoinInput.handicap = none ∧ priorRow.player = rejoinInput.player ∧
    priorRow.handicap = 7 ∧
    teamPlayerCreate [priorRow] rejoinInput =
      Except.error "FieldError: cannot resolve keyword created_at into field" :=
  ⟨rfl, rfl, rfl, rfl⟩

/-- Claim C2. Saving a Game in status completed, with its winner not yet
set and both scores present, resolves the winner against the race-to values
in force (an absent race-to is first defaulted to 1 by the save hook):
home score reaching its race-to makes the winner home and moves the parent
match home score up by exactly one; otherwise away score reaching its
race-to makes the winner away and moves the parent away score up by exactly
one; otherwise the winner is tie and neither parent score moves. An absent
parent score counts as 0, which the code writes back. -/
theorem c2_game_completion_cascade (g g' : Game) (hs as_ : Int)
    (hst : g.status = "completed") (hw : g.winner = none)
    (hh : g.home_score = some hs) (ha : g.away_score = some as_)
    (hsave : g.save = some g') :
    (g.home_race_to.getD 1 ≤ hs →
        g'.winner = some "home" ∧
        g'.match_row.home_score = some (g.match_row.home_score.getD 0 + 1) ∧
        g'.match_row.away_score = some (g.match_row.away_score.getD 0)) ∧
    (¬ g.home_race_to.getD 1 ≤ hs → g.away_race_to.getD 1 ≤ as_ →
        g'.winner = some "away" ∧
        g'.match_row.home_score = some (g.match_row.home_score.getD 0) ∧
        g'.match_row.away_score = some (g.match_row.away_score.getD 0 + 1)) ∧
    (¬ g.home_race_to.getD 1 ≤ hs → ¬ g.away_race_to.getD 1 ≤ as_ →
        g'.winner = some "tie" ∧
        g'.match_row.home_score = some (g.match_row.home_score.getD 0) ∧
        g'.match_row.away_score = some (g.match_row.away_score.getD 0)) := by
  obtain ⟨mr, hp, ap, ghr, gar, ghs, gas, gw, gst, gsnap⟩ := g
  simp only at hst hw hh ha hsave ⊢
  subst hst hw hh ha
  rcases ghr with _ | hrt <;> rcases gar with _ | art <;>
    (simp [Game.save, Game.set_player_snapshot] at hsave;
     have hspec := update_game_winner_spec _ hs as_ _ _ _ rfl rfl rfl rfl rfl hsave;
     simpa using hspec)

/-- Claim C2, witness at gameDone: 5 to 3 against race-to 5, home wins and
the parent match gains exactly one point. -/
theorem c2_game_completion_cascade_witness :
    (gameDone.status = "completed" ∧ gameDone.winner = none ∧
     gameDone.home_score = some 5 ∧ gameDone.away_score = some 3 ∧
     gameDone.save = some gameDoneSaved) ∧
    (gameDone.home_race_to.getD 1 ≤ 5 →
        gameDoneSaved.winner = some "home" ∧
        gameDoneSaved.match_row.home_score =
          some (gameDone.match_row.home_score.getD 0 + 1) ∧
        gameDoneSaved.match_row.away_score =
          some (gameDone.match_row.away_score.getD 0)) :=
  ⟨⟨rfl, rfl, rfl, rfl, by decide⟩,
   (c2_game_completion_cascade gameDone gameDoneSaved 5 3 rfl rfl rfl rfl
     (by decide)).1⟩

/-- Claim C3. Saving a Match in status completed with both scores, both
race-to values, and two distinct roster rows: home score at or above its
race-to sets the winner to home, adds a win and the home score to the home
roster record and a loss and the away score to the away roster record; else
away score at or above its race-to does the symmetric updates; otherwise no
winner is assigned and both roster records are untouched. -/
theorem c3_match_completion (m m' : Match) (hs as_ hrt art : Int)
    (hst : m.status = "completed")
    (hh : m.home_score = some hs) (ha : m.away_score = some as_)
    (hhrt : m.home_race_to = some hrt) (hart : m.away_race_to = some art)
    (hid : m.home_team.id ≠ m.away_team.id)
    (hsave : m.save = some m') :
    (hrt ≤ hs →
        m'.winner = some "home" ∧
        m'.home_team.wins = m.home_team.wins + 1 ∧
        m'.home_team.games_won = m.home_team.games_won + hs ∧
        m'.away_team.losses = m.away_team.losses + 1 ∧
        m'.away_team.games_lost = m.away_team.games_lost + as_) ∧
    (¬ hrt ≤ hs → art ≤ as_ →
        m'.winner = some "away" ∧
        m'.away_team.wins = m.away_team.wins + 1 ∧
        m'.away_team.games_won = m.away_team.games_won + as_ ∧
        m'.home_team.losses = m.home_team.losses + 1 ∧
        m'.home_team.games_lost = m.home_team.games_lost + hs) ∧
    (¬ hrt ≤ hs → ¬ art ≤ as_ →
        m'.winner = m.winner ∧ m'.home_team = m.home_team ∧
        m'.away_team = m.away_team) := by
  by_cases hc1 : hrt ≤ hs
  · rw [match_save_home_win m hs as_ hrt hst hh ha hhrt hc1 hid] at hsave
    simp only [Option.some.injEq] at hsave
    subst hsave
    refine ⟨fun _ => ⟨rfl, rfl, rfl, rfl, rfl⟩,
            fun hn _ => absurd hc1 hn, fun hn _ => absurd hc1 hn⟩
  · by_cases hc2 : art ≤ as_
    · rw [match_save_away_win m hs as_ hrt art hst hh ha hhrt hart hc1 hc2
          hid] at hsave
      simp only [Option.some.injEq] at hsave
      subst hsave
      refine ⟨fun hc => absurd hc hc1, fun _ _ => ⟨rfl, rfl, rfl, rfl, rfl⟩,
              fun _ hn => absurd hc2 hn⟩
    · rw [match_save_no_win m hs as_ hrt art hst hh ha hhrt hart hc1 hc2]
        at hsave
      simp only [Option.some.injEq] at hsave
      subst hsave
      exact ⟨fun hc => absurd hc hc1, fun _ hc => absurd hc hc2,
             fun _ _ => ⟨rfl, rfl, rfl⟩⟩

/-- Claim C3, witness at matchDone: 20 to 10 against race-to 20 and 26. -/
theorem c3_match_completion_witness :
    (matchDone.status = "completed" ∧ matchDone.home_score = some 20 ∧
     matchDone.away_score = some 10 ∧ matchDone.home_race_to = some 20 ∧
     matchDone.away_race_to = some 26 ∧
     matchDone.home_team.id ≠ matchDone.away_team.id ∧
     matchDone.save = some matchDoneSaved) ∧
    ((20 : Int) ≤ 20 →
        matchDoneSaved.winner = some "home" ∧
        matchDoneSaved.home_team.wins = matchDone.home_team.wins + 1 ∧
        matchDoneSaved.home_team.games_won =
          matchDone.home_team.games_won + 20 ∧
        matchDoneSaved.away_team.losses = matchDone.away_team.losses + 1 ∧
        matchDoneSaved.away_team.games_lost =
          matchDone.away_team.games_lost + 10) :=
  ⟨⟨rfl, rfl, rfl, rfl, rfl, by decide, by decide⟩,
   (c3_match_completion matchDone matchDoneSaved 20 10 20 26 rfl rfl rfl rfl
     rfl (by decide) (by decide)).1⟩

/-- Claim C4. calculate_race_to on a match with lineups sets each race-to
field to max(20, 30 - handicap sum) of the corresponding lineup, and the
formula takes the claimed values at the sums 0, 11 and 15. -/
theorem c4_race_calculator (m : Match) (lu : Lineups) (m' : Match)
    (hlu : m.lineups = some lu) (hcalc : m.calculate_race_to = some m') :
    m'.home_race_to = some (max 20 (30 - lu.home_team.sum)) ∧
    m'.away_race_to = some (max 20 (30 - lu.away_team.sum)) ∧
    max 20 (30 - (0 : Int)) = 30 ∧ max 20 (30 - (11 : Int)) = 20 ∧
    max 20 (30 - (15 : Int)) = 20 := by
  unfold Match.calculate_race_to at hcalc
  rw [hlu] at hcalc
  dsimp only at hcalc
  have hp := match_save_preserves _ _ hcalc
  refine ⟨?_, ?_, by decide, by decide, by decide⟩ <;> simp_all

/-- Claim C4, witness at matchWithLineups, handicap sums 10 and 4 giving
race-to 20 and 26. -/
theorem c4_race_calculator_witness :
    (matchWithLineups.lineups =
        some { home_team := [5, 5], away_team := [2, 2] } ∧
     matchWithLineups.calculate_race_to = some matchWithLineupsCalc) ∧
    (matchWithLineupsCalc.home_race_to =
        some (max 20 (30 - ([5, 5] : List Int).sum)) ∧
     matchWithLineupsCalc.away_race_to =
        some (max 20 (30 - ([2, 2] : List Int).sum))) :=
  ⟨⟨rfl, by decide⟩,
   (c4_race_calculator matchWithLineups
      { home_team := [5, 5], away_team := [2, 2] } matchWithLineupsCalc rfl
      (by decide)).1,
   (c4_race_calculator matchWithLineups
      { home_team := [5, 5], away_team := [2, 2] } matchWithLineupsCalc rfl
      (by decide)).2.1⟩

/-- Claim C5. Saving a Game whose winner is already recorded, again in
status completed, leaves the parent Match row entirely unchanged: the
winner guard in update_game_winner skips the whole block, so the parent
scores are not incremented a second time. -/
theorem c5_idempotent_game_completion (g g' : Game) (w : String)
    (hw : g.winner = some w) (hst : g.status = "completed")
    (hsave : g.save = some g') :
    g'.match_row = g.match_row := by
  obtain ⟨mr, hp, ap, ghr, gar, ghs, gas, gw, gst, gsnap⟩ := g
  simp only at hw hst hsave ⊢
  subst hw hst
  rcases ghr with _ | hrt <;> rcases gar with _ | art <;>
    (simp [Game.save, Game.set_player_snapshot, Game.update_game_winner]
       at hsave;
     subst hsave; rfl)

/-- Claim C5, witness at gameWon: the already won game saves again without
touching the parent match. -/
theorem c5_idempotent_game_completion_witness :
    (gameWon.winner = some "home" ∧ gameWon.status = "completed" ∧
     gameWon.save = some gameWonSaved) ∧
    gameWonSaved.match_row = gameWon.match_row :=
  ⟨⟨rfl, rfl, by decide⟩,
   c5_idempotent_game_completion gameWon gameWonSaved "home" rfl rfl
     (by decide)⟩

/-- Claim C10. Match completion is not idempotent: a Match already in
status completed with a recorded home winner, scores and race-to values in
place, gets its roster records incremented again on every further save,
because update_match_winner has no guard on an already set winner; two
consecutive saves accumulate two full sets of increments. -/
theorem c10_match_completion_not_idempotent (m m' m'' : Match)
    (hs as_ hrt : Int)
    (hst : m.status = "completed")
    (hh : m.home_score = some hs) (ha : m.away_score = some as_)
    (hhrt : m.home_race_to = some hrt) (hwin : hrt ≤ hs)
    (_hprev : m.winner = some "home")
    (hid : m.home_team.id ≠ m.away_team.id)
    (hsave : m.save = some m') (hsave2 : m'.save = some m'') :
    m'.winner = some "home" ∧
    m'.home_team.wins = m.home_team.wins + 1 ∧
    m'.home_team.games_won = m.home_team.games_won + hs ∧
    m'.away_team.losses = m.away_team.losses + 1 ∧
    m'.away_team.games_lost = m.away_team.games_lost + as_ ∧
    m''.home_team.wins = m.home_team.wins + 2 ∧
    m''.home_team.games_won = m.home_team.games_won + 2 * hs ∧
    m''.away_team.losses = m.away_team.losses + 2 ∧
    m''.away_team.games_lost = m.away_team.games_lost + 2 * as_ := by
  rw [match_save_home_win m hs as_ hrt hst hh ha hhrt hwin hid] at hsave
  simp only [Option.some.injEq] at hsave
  subst hsave
  rw [match_save_home_win _ hs as_ hrt (by simpa using hst) (by simpa using hh)
        (by simpa using ha) (by simpa using hhrt) hwin (by simpa using hid)]
    at hsave2
  simp only [Option.some.injEq] at hsave2
  subst hsave2
  refine ⟨rfl, rfl, rfl, rfl, rfl, ?_, ?_, ?_, ?_⟩ <;> simp <;> ring

/-- Claim C10, witness at matchDoneAgain, a completed match with winner
already recorded: two further saves add two wins and 40 games to the home
roster record. -/
theorem c10_match_completion_not_idempotent_witness :
    (matchDoneAgain.status = "completed" ∧
     matchDoneAgain.home_score = some 20 ∧
     matchDoneAgain.away_score = some 10 ∧
     matchDoneAgain.home_race_to = some 20 ∧ (20 : Int) ≤ 20 ∧
     matchDoneAgain.winner = some "home" ∧
     matchDoneAgain.home_team.id ≠ matchDoneAgain.away_team.id ∧
     matchDoneAgain.save = some matchDoneAgain1 ∧
     matchDoneAgain1.save = some matchDoneAgain2) ∧
    (matchDoneAgain1.home_team.wins = matchDoneAgain.home_team.wins + 1 ∧
     matchDoneAgain2.home_team.wins = matchDoneAgain.home_team.wins + 2 ∧
     matchDoneAgain2.home_team.games_won =
       matchDoneAgain.home_team.games_won + 2 * 20 ∧
     matchDoneAgain2.away_team.losses =
       matchDoneAgain.away_team.losses + 2) := by
  have h := c10_match_completion_not_idempotent matchDoneAgain matchDoneAgain1
    matchDoneAgain2 20 10 20 rfl rfl rfl rfl (by decide) rfl (by decide)
    (by decide) (by decide)
  exact ⟨⟨rfl, rfl, rfl, rfl, by decide, rfl, by decide, by decide, by decide⟩,
         h.2.1, h.2.2.2.2.2.1, h.2.2.2.2.2.2.1, h.2.2.2.2.2.2.2.1⟩

end LMS
